import Mathlib

/-!
Shallow embedding of the fenecon_pv_api repository (Rust), covering the
calculator (Transformer), the db record conversions, the PostgreSQL health
tracker, the SQLite→PostgreSQL sync loop, and the health/state coordinator.
Machine integers are modelled as Int/Nat with explicit range side conditions;
operations that can panic in Rust (overflowing `abs`, failing `try_into`,
`unwrap`) are modelled with Option, `none` meaning a panic.
-/

namespace PvApi

/-- Smallest i32 value, `i32::MIN = -2^31`. -/
def i32Min : Int := -2147483648

/-- Largest u32 value, `u32::MAX = 2^32 - 1`. -/
def u32Max : Int := 4294967295

/-- Rust `i32::abs`: panics (debug overflow / release wrap followed by a failing
`try_into::<u32>`) exactly at `i32::MIN`; otherwise the absolute value. -/
def i32Abs (x : Int) : Option Int :=
  if x = i32Min then none else some (x.natAbs : Int)

/-- Rust `TryInto::<u32>::try_into` on an integer followed by `unwrap`:
succeeds exactly when the value fits in u32. -/
def u32TryFrom (x : Int) : Option Nat :=
  if 0 ≤ x ∧ x ≤ u32Max then some x.toNat else none

/-- Rust `as u32` cast of an integer: wraps modulo 2^32 (never panics). -/
def u32Cast (x : Int) : Nat := (x % 4294967296).toNat

-- ===========================================================================
-- collector.rs data model (fields that reach the calculator)
-- ===========================================================================

/-- Source `collector.rs` `RawPowerData`: dc_power/production_power/
consumption_power are u16, grid_power/battery_power are i32 (battery_power
already corrected by `-= dc_power` in `RawPowerData::get_data`),
battery_state (SoC) is u8. -/
structure RawPowerData where
  dc_power : Nat
  production_power : Nat
  grid_power : Int
  battery_state : Nat
  battery_power : Int
  consumption_power : Nat
  deriving DecidableEq, Repr

-- ===========================================================================
-- config.rs BatteryConfig
-- ===========================================================================

/-- Source `config.rs` `BatteryConfig`: max_battery_energy is u16
(env MAX_BATTERY_ENERGY, default 10000), empty_threshold is u8
(env EMPTY_THRESHOLD, default 10). -/
structure BatteryConfig where
  max_battery_energy : Nat
  empty_threshold : Nat
  deriving DecidableEq, Repr

-- ===========================================================================
-- calculator.rs data model
-- ===========================================================================

/-- Source `calculator.rs` `BatteryState` (payloads are u32). -/
inductive BatteryState where
  | Loading (power : Nat)
  | Discharging (power : Nat)
  | Full
  | Empty
  deriving DecidableEq, Repr

/-- Source `calculator.rs` `SupplyState` (payloads are u32). -/
inductive SupplyState where
  | Surplus (power : Nat)
  | Demand (power : Nat)
  | Offline
  deriving DecidableEq, Repr

/-- Source `calculator.rs` `BatteryStatus`. The Rust field battery_energy is
an f32; it is modelled as an exact rational. Every theorem below that
evaluates battery_energy does so only at inputs for which each intermediate
f32 value (soc/100, max*frac, *1000 - e.g. 0.75, 7500, 7500000) is exactly
representable in f32, where the f32 computation and the rational one agree. -/
structure BatteryStatus where
  battery_state : BatteryState
  battery_percent : Nat
  battery_energy : ℚ
  deriving DecidableEq

/-- Source `calculator.rs` `ProcessedData`. -/
structure ProcessedData where
  supply_state : SupplyState
  battery_status : BatteryStatus
  full_production : Nat
  consumption : Nat
  deriving DecidableEq

/-- The `supply_state` match in `ProcessedData::process_raw`
(calculator.rs:144-148): `Less => Surplus(grid_power.abs().try_into().unwrap())`,
`Greater => Demand(grid_power as u32)`, `Equal => Offline`.
`none` models a panic of `abs`/`unwrap`. -/
def supplyStateOf (grid_power : Int) : Option SupplyState :=
  if grid_power < 0 then
    (i32Abs grid_power).bind fun a => (u32TryFrom a).map SupplyState.Surplus
  else if 0 < grid_power then
    some (SupplyState.Demand (u32Cast grid_power))
  else
    some SupplyState.Offline

/-- The `battery_state` match in `ProcessedData::process_raw`
(calculator.rs:150-160). Rust range patterns: `100..` is `100 ≤ b`,
`..-100` is `b < -100` (excludes -100), `-100..100` is `-100 ≤ b < 100`.
`none` models a panic of `abs`/`unwrap`. -/
def batteryStateOf (battery_power : Int) (battery_percent battery_threshold : Nat) :
    Option BatteryState :=
  if 100 ≤ battery_power then
    (u32TryFrom battery_power).map BatteryState.Discharging
  else if battery_power < -100 then
    (i32Abs battery_power).bind fun a => (u32TryFrom a).map BatteryState.Loading
  else
    some (if battery_percent ≤ battery_threshold then BatteryState.Empty
          else BatteryState.Full)

/-- Source `calculator.rs` `ProcessedData::process_raw` (lines 137-180).
No clamping of battery_percent occurs anywhere in the source function; the
SoC is copied into the result unchanged. battery_energy is
`max_battery_cap as f32 * (battery_percent as f32 / 100.0)`, modelled as an
exact rational (see `BatteryStatus`). `none` models a panic. -/
def process_raw (raw_data : RawPowerData) (config : BatteryConfig) :
    Option ProcessedData :=
  let grid_power := raw_data.grid_power
  let battery_power := raw_data.battery_power
  let battery_percent := raw_data.battery_state
  let battery_threshold := config.empty_threshold
  let max_battery_cap := config.max_battery_energy
  match supplyStateOf grid_power,
        batteryStateOf battery_power battery_percent battery_threshold with
  | some supply_state, some battery_state =>
    let percent : ℚ := (battery_percent : ℚ) / 100
    let battery_energy : ℚ := (max_battery_cap : ℚ) * percent
    some { supply_state := supply_state
           battery_status := { battery_state := battery_state
                               battery_percent := battery_percent
                               battery_energy := battery_energy }
           full_production := raw_data.production_power
           consumption := raw_data.consumption_power }
  | _, _ => none

-- ===========================================================================
-- calculator.rs SensorValue implementations (used by db.rs From conversion)
-- ===========================================================================

/-- Source `impl SensorValue for BatteryState::power_value`
(calculator.rs:66-72): `Loading(p) => -(p as i32)`, `Discharging(p) => p as i32`,
idle states 0. Payloads produced by `process_raw` are < 2^31, where the
`as i32` cast is the identity. -/
def BatteryState.power_value : BatteryState → Int
  | BatteryState.Loading power => -(power : Int)
  | BatteryState.Discharging power => (power : Int)
  | BatteryState.Full => 0
  | BatteryState.Empty => 0

/-- Source `impl SensorValue for BatteryState::state_string`
(calculator.rs:74-81). -/
def BatteryState.state_string : BatteryState → String
  | BatteryState.Loading _ => "charging"
  | BatteryState.Discharging _ => "discharging"
  | BatteryState.Full => "full"
  | BatteryState.Empty => "empty"

/-- Source `impl SensorValue for SupplyState::power_value`
(calculator.rs:86-92). -/
def SupplyState.power_value : SupplyState → Int
  | SupplyState.Surplus power => -(power : Int)
  | SupplyState.Demand power => (power : Int)
  | SupplyState.Offline => 0

/-- Source `impl SensorValue for SupplyState::state_string`
(calculator.rs:94-100). -/
def SupplyState.state_string : SupplyState → String
  | SupplyState.Surplus _ => "surplus"
  | SupplyState.Demand _ => "demand"
  | SupplyState.Offline => "offline"

-- ===========================================================================
-- db.rs record conversion
-- ===========================================================================

/-- Truncation toward zero of a rational, the rounding Rust applies in an
`f32 as i32` cast. -/
def ratTrunc (q : ℚ) : Int :=
  if 0 ≤ q then ⌊q⌋ else -⌊-q⌋

/-- Rust `f32 as i32` cast: truncate toward zero, saturating at the i32
bounds. -/
def f32AsI32 (q : ℚ) : Int :=
  max i32Min (min 2147483647 (ratTrunc q))

/-- Source `db.rs` `PvPowerRecord` (the columns written by the stores;
id/timestamp/created_at are generated per call and carried separately). -/
structure PvPowerRecord where
  pv_production : Int
  supply_power : Int
  battery_power : Int
  consumption : Int
  battery_state : String
  supply_state : String
  battery_percent : Int
  battery_energy_wh : Int
  deriving DecidableEq, Repr

/-- Source `impl From<&ProcessedData> for PvPowerRecord` (db.rs:50-67).
battery_energy_wh is `(data.battery_status.battery_energy * 1000.0) as i32`;
the f32 multiplication is exact at every input evaluated below (products
are integers < 2^24). -/
def pvPowerRecordFrom (data : ProcessedData) : PvPowerRecord :=
  { pv_production := (data.full_production : Int)
    supply_power := data.supply_state.power_value
    battery_power := data.battery_status.battery_state.power_value
    consumption := (data.consumption : Int)
    battery_state := data.battery_status.battery_state.state_string
    supply_state := data.supply_state.state_string
    battery_percent := (data.battery_status.battery_percent : Int)
    battery_energy_wh := f32AsI32 (data.battery_status.battery_energy * 1000) }

-- ===========================================================================
-- db.rs PostgreSQL health tracker
-- ===========================================================================

/-- Source `db.rs` `PostgresHealth`. -/
inductive PostgresHealth where
  | Healthy
  | Degraded
  | Disconnected
  deriving DecidableEq, Repr

/-- Source `db.rs` `PostgresState`. Timestamps (`DateTime<Utc>`) are modelled
as Nat instants. -/
structure PostgresState where
  health : PostgresHealth
  last_success : Option Nat
  last_failure : Option Nat
  consecutive_failures : Nat
  last_error : Option String
  deriving DecidableEq, Repr

/-- Source `PostgresDatabase::update_success` (db.rs:350-356). -/
def update_success (now : Nat) (st : PostgresState) : PostgresState :=
  { st with last_success := some now
            consecutive_failures := 0
            last_error := none
            health := PostgresHealth.Healthy }

/-- Source `PostgresDatabase::update_failure` (db.rs:358-369):
`consecutive_failures += 1`, health becomes Disconnected at ≥ 3 failures,
Degraded below. -/
def update_failure (now : Nat) (err : String) (st : PostgresState) : PostgresState :=
  let failures := st.consecutive_failures + 1
  { st with last_failure := some now
            consecutive_failures := failures
            last_error := some err
            health := if 3 ≤ failures then PostgresHealth.Disconnected
                      else PostgresHealth.Degraded }

/-- Source `PostgresDatabase::store_power_data` (db.rs:211-263). The pool is
`Option Unit` (absent when the initial connection failed); with no pool the
function returns the `eyre!("PostgreSQL not connected")` error before any SQL
runs and before any tracker update. With a pool, the insert outcome `queryOk`
drives `update_success` / `update_failure`. -/
def store_power_data (pool : Option Unit) (st : PostgresState) (now : Nat)
    (queryOk : Bool) (err : String) : Except String Unit × PostgresState :=
  match pool with
  | none => (Except.error "PostgreSQL not connected", st)
  | some _ =>
    if queryOk then (Except.ok (), update_success now st)
    else (Except.error err, update_failure now err st)

/-- Source `PostgresDatabase::store_energy_data` (db.rs:265-315); identical
control flow to `store_power_data` (different table). -/
def store_energy_data (pool : Option Unit) (st : PostgresState) (now : Nat)
    (queryOk : Bool) (err : String) : Except String Unit × PostgresState :=
  match pool with
  | none => (Except.error "PostgreSQL not connected", st)
  | some _ =>
    if queryOk then (Except.ok (), update_success now st)
    else (Except.error err, update_failure now err st)

-- ===========================================================================
-- db.rs SQLite→PostgreSQL sync loop and the DO NOTHING upsert
-- ===========================================================================

/-- The per-row loop of `SqliteCache::sync_power_data_batch` (db.rs:613-623)
and `sync_energy_data_batch` (db.rs:657-667): for each cached record the loop
calls `store_serialized_*_data` and, if it returned Ok, counts the row and
marks its timestamp for archival; there is no break on error. Returns
(attempted timestamps in order, timestamps_to_archive). `ok ts` is the
outcome of the upstream insert for the row with timestamp `ts`. -/
def syncLoop : List Nat → (Nat → Bool) → List Nat × List Nat
  | [], _ => ([], [])
  | record :: rest, ok =>
    let (attempted, to_archive) := syncLoop rest ok
    (record :: attempted, if ok record then record :: to_archive else to_archive)

/-- SQL semantics of `INSERT … ON CONFLICT (timestamp) DO NOTHING` as issued
by `SqliteCache::store_serialized_power_data` (db.rs:678-710) and
`store_serialized_energy_data` (db.rs:712-743): a table keyed by timestamp
gains the row only when no row with that timestamp exists. -/
def upsertDoNothing {α : Type} (table : List (Nat × α)) (ts : Nat) (row : α) :
    List (Nat × α) :=
  if ts ∈ table.map Prod.fst then table else table ++ [(ts, row)]

/-- Replaying a cache batch to the upstream table: each row is inserted with
`upsertDoNothing`, in batch order (timestamp ascending from the
`ORDER BY timestamp ASC` SELECT). Connection-level failures are absent in
this SQL-level model; a rejected-duplicate row is an Ok outcome in the source
(`execute` succeeds with zero rows). -/
def drainBatch {α : Type} (table : List (Nat × α)) (batch : List (Nat × α)) :
    List (Nat × α) :=
  batch.foldl (fun t r => upsertDoNothing t r.1 r.2) table

-- ===========================================================================
-- health.rs collect_raw_data_with_retry
-- ===========================================================================

/-- Source `health.rs` `MAX_RETRIES` (line 584). -/
def MAX_RETRIES : Nat := 3

/-- Source `health.rs` `BASE_DELAY_MS` (line 585). -/
def BASE_DELAY_MS : Nat := 100

/-- The `for attempt in 0..MAX_RETRIES` loop of `collect_raw_data_with_retry`
(health.rs:587-607), structurally recursed on the remaining iterations
(`fuel`, initially MAX_RETRIES). `ok attempt` is the outcome of
`RawPVData::fill_raw` on that attempt. Success returns immediately; the final
attempt's failure returns the error; an earlier failure sleeps
`BASE_DELAY_MS * 2^attempt` ms and retries. Returns (result, backoff delays
slept, in order). -/
def retryLoop (ok : Nat → Bool) : Nat → Nat → Option Unit × List Nat
  | _, 0 => (none, [])
  | attempt, fuel + 1 =>
    if ok attempt then (some (), [])
    else if attempt = MAX_RETRIES - 1 then (none, [])
    else
      let rest := retryLoop ok (attempt + 1) fuel
      (rest.1, BASE_DELAY_MS * 2 ^ attempt :: rest.2)

/-- Source `health.rs` `collect_raw_data_with_retry` (lines 583-609). -/
def collect_raw_data_with_retry (ok : Nat → Bool) : Option Unit × List Nat :=
  retryLoop ok 0 MAX_RETRIES

-- ===========================================================================
-- health.rs coordinator state machine
-- ===========================================================================

/-- Source `health.rs` `HealthState` (the five typestates of `Coordinator`). -/
inductive CoordState where
  | Healthy
  | DegradedNoDB
  | DegradedNoMqtt
  | CacheOnly
  | Shutdown
  deriving DecidableEq, Repr

/-- Source `health.rs` `HealthStateTransition`. The `(ProcessedData,
DataHistory)` payload of `ToDegradedNoDB` and `ToCacheOnly` is modelled by
the timestamp of the carried sample pair. -/
inductive HTransition where
  | ToHealthy
  | ToDegradedNoDB (ts : Nat)
  | ToDegradedNoMqtt
  | ToCacheOnly (ts : Nat)
  | ToShutdown
  deriving DecidableEq, Repr

/-- Source `health.rs` `CoordinatorResult`. -/
inductive CResult where
  | Continue
  | TransitionTo (t : HTransition)
  | ShutdownR
  deriving DecidableEq, Repr

/-- Contents of the four sink tables plus the two archive tables, as sets of
sample timestamps (each table keys rows by a unique timestamp). -/
structure Sinks where
  upstreamPower : List Nat
  upstreamEnergy : List Nat
  cachePower : List Nat
  cacheEnergy : List Nat
  archivePower : List Nat
  archiveEnergy : List Nat
  deriving DecidableEq, Repr

/-- Empty sinks. -/
def emptySinks : Sinks :=
  { upstreamPower := [], upstreamEnergy := [], cachePower := [],
    cacheEnergy := [], archivePower := [], archiveEnergy := [] }

/-- Outcomes the environment hands one coordinator cycle: whether the
recovery-probe rate limiter fires (`should_attempt_recovery`), the probe
results, the collection outcome, and the success of each sink write. -/
structure CycleEnv where
  probeDue : Bool
  dbProbeHealthy : Bool
  mqttProbeHealthy : Bool
  collectOk : Bool
  upPowerOk : Bool
  upEnergyOk : Bool
  mqttPublishOk : Bool
  cachePowerOk : Bool
  cacheEnergyOk : Bool
  deriving DecidableEq, Repr

/-- Membership-preserving merge used to model a drain of a whole cache table
into an upstream table under `ON CONFLICT DO NOTHING`: every cached timestamp
absent upstream is added. -/
def mergeDoNothing (upstream cache : List Nat) : List Nat :=
  cache.foldl (fun t ts => if ts ∈ t then t else t ++ [ts]) upstream

/-- Source `SqliteCache::sync_to_postgres` (db.rs:561-588) as invoked from the
coordinator transitions, at the level of sink contents with every row insert
succeeding: cached rows are replayed upstream (DO NOTHING) and moved to the
archive, emptying the live cache. -/
def syncToPostgres (s : Sinks) : Sinks :=
  { upstreamPower := mergeDoNothing s.upstreamPower s.cachePower
    upstreamEnergy := mergeDoNothing s.upstreamEnergy s.cacheEnergy
    cachePower := []
    cacheEnergy := []
    archivePower := s.archivePower ++ s.cachePower
    archiveEnergy := s.archiveEnergy ++ s.cacheEnergy }

/-- Insert a timestamp into an upstream table via the live-path UPSERT
(`ON CONFLICT DO UPDATE`): membership-wise the row for `ts` is present
afterwards. -/
def upsertUpdate (table : List Nat) (ts : Nat) : List Nat :=
  if ts ∈ table then table else table ++ [ts]

/-- Source `Coordinator::<Healthy>::run_cycle` (health.rs:75-117).
`Except.error` models the `?` on `collect_raw_data_with_retry`. Returns the
cycle result, the updated sinks, and the timestamp of the produced sample
pair when one was computed. -/
def healthyRunCycle (env : CycleEnv) (sinks : Sinks) (ts : Nat) :
    Except Unit (CResult × Sinks × Option Nat) :=
  if !env.collectOk then Except.error () else
  let s1 := if env.upPowerOk then
    { sinks with upstreamPower := upsertUpdate sinks.upstreamPower ts } else sinks
  let s2 := if env.upEnergyOk then
    { s1 with upstreamEnergy := upsertUpdate s1.upstreamEnergy ts } else s1
  match env.upPowerOk && env.upEnergyOk, env.mqttPublishOk with
  | true, true => Except.ok (CResult.Continue, s2, some ts)
  | true, false => Except.ok (CResult.TransitionTo HTransition.ToDegradedNoMqtt, s2, some ts)
  | false, true => Except.ok (CResult.TransitionTo (HTransition.ToDegradedNoDB ts), s2, some ts)
  | false, false => Except.ok (CResult.TransitionTo (HTransition.ToCacheOnly ts), s2, some ts)

/-- Source `Coordinator::<DegradedNoDB>::run_cycle` (health.rs:171-226):
probe the database when due (Healthy → transition ToHealthy before any
collection); otherwise collect, write both samples to the cache (a cache
failure transitions ToShutdown), then publish; an MQTT failure transitions
ToCacheOnly carrying the pair. -/
def degradedNoDBRunCycle (env : CycleEnv) (sinks : Sinks) (ts : Nat) :
    Except Unit (CResult × Sinks × Option Nat) :=
  if env.probeDue && env.dbProbeHealthy then
    Except.ok (CResult.TransitionTo HTransition.ToHealthy, sinks, none)
  else
  if !env.collectOk then Except.error () else
  if !env.cachePowerOk then
    Except.ok (CResult.TransitionTo HTransition.ToShutdown, sinks, some ts)
  else
  let s1 := { sinks with cachePower := upsertUpdate sinks.cachePower ts }
  if !env.cacheEnergyOk then
    Except.ok (CResult.TransitionTo HTransition.ToShutdown, s1, some ts)
  else
  let s2 := { s1 with cacheEnergy := upsertUpdate s1.cacheEnergy ts }
  if !env.mqttPublishOk then
    Except.ok (CResult.TransitionTo (HTransition.ToCacheOnly ts), s2, some ts)
  else
    Except.ok (CResult.Continue, s2, some ts)

/-- Source `Coordinator::<DegradedNoMqtt>::run_cycle` (health.rs:253-292):
probe MQTT when due (Healthy → ToHealthy); otherwise collect and store both
samples upstream; if either upstream store failed, transition ToCacheOnly
carrying the pair. The cache is not written on this path. -/
def degradedNoMqttRunCycle (env : CycleEnv) (sinks : Sinks) (ts : Nat) :
    Except Unit (CResult × Sinks × Option Nat) :=
  if env.probeDue && env.mqttProbeHealthy then
    Except.ok (CResult.TransitionTo HTransition.ToHealthy, sinks, none)
  else
  if !env.collectOk then Except.error () else
  let s1 := if env.upPowerOk then
    { sinks with upstreamPower := upsertUpdate sinks.upstreamPower ts } else sinks
  let s2 := if env.upEnergyOk then
    { s1 with upstreamEnergy := upsertUpdate s1.upstreamEnergy ts } else s1
  if !env.upPowerOk || !env.upEnergyOk then
    Except.ok (CResult.TransitionTo (HTransition.ToCacheOnly ts), s2, some ts)
  else
    Except.ok (CResult.Continue, s2, some ts)

/-- Source `Coordinator::<CacheOnly>::run_cycle` (health.rs:311-383): probe
both services when due — (db ✓, mqtt ✓) → ToHealthy; (db ✓, mqtt ✗) →
ToDegradedNoMqtt; (db ✗, mqtt ✓) → ToDegradedNoMqtt as written at
health.rs:344-346 although the branch's log line says DegradedNoDB;
(db ✗, mqtt ✗) falls through. The cycle then collects with `if let Ok`
(a collection failure is only logged — no error propagates) and writes both
samples to the cache; a cache failure transitions ToShutdown. -/
def cacheOnlyRunCycle (env : CycleEnv) (sinks : Sinks) (ts : Nat) :
    Except Unit (CResult × Sinks × Option Nat) :=
  if env.probeDue && (env.dbProbeHealthy || env.mqttProbeHealthy) then
    match env.dbProbeHealthy, env.mqttProbeHealthy with
    | true, true => Except.ok (CResult.TransitionTo HTransition.ToHealthy, sinks, none)
    | true, false => Except.ok (CResult.TransitionTo HTransition.ToDegradedNoMqtt, sinks, none)
    | false, true => Except.ok (CResult.TransitionTo HTransition.ToDegradedNoMqtt, sinks, none)
    | false, false => Except.ok (CResult.Continue, sinks, none)
  else
  if !env.collectOk then Except.ok (CResult.Continue, sinks, none) else
  if !env.cachePowerOk then
    Except.ok (CResult.TransitionTo HTransition.ToShutdown, sinks, some ts)
  else
  let s1 := { sinks with cachePower := upsertUpdate sinks.cachePower ts }
  if !env.cacheEnergyOk then
    Except.ok (CResult.TransitionTo HTransition.ToShutdown, s1, some ts)
  else
  let s2 := { s1 with cacheEnergy := upsertUpdate s1.cacheEnergy ts }
  Except.ok (CResult.Continue, s2, some ts)

/-- Source `Coordinator::<Shutdown>::run_cycle` + `cleanup`
(health.rs:415-434): publish offline, sync remaining cache, return
`CoordinatorResult::Shutdown`. -/
def shutdownRunCycle (_env : CycleEnv) (sinks : Sinks) :
    Except Unit (CResult × Sinks × Option Nat) :=
  Except.ok (CResult.ShutdownR, syncToPostgres sinks, none)

/-- Dispatch of `CoordinatorKind::run_cycle` (health.rs:473-481). -/
def runCycle (s : CoordState) (env : CycleEnv) (sinks : Sinks) (ts : Nat) :
    Except Unit (CResult × Sinks × Option Nat) :=
  match s with
  | CoordState.Healthy => healthyRunCycle env sinks ts
  | CoordState.DegradedNoDB => degradedNoDBRunCycle env sinks ts
  | CoordState.DegradedNoMqtt => degradedNoMqttRunCycle env sinks ts
  | CoordState.CacheOnly => cacheOnlyRunCycle env sinks ts
  | CoordState.Shutdown => shutdownRunCycle env sinks

/-- Writing a carried `(ProcessedData, DataHistory)` pair to the cache, as
`Coordinator::<Healthy>::to_degraded_no_db` (health.rs:119-137) and
`Coordinator::<Healthy>::to_cache_only` (health.rs:144-162) do: both stores
are attempted; if either failed the coordinator forces shutdown (the source
then hits `unreachable!()`, a panic — modelled as the Shutdown state). -/
def cacheCarriedPair (env : CycleEnv) (sinks : Sinks) (ts : Nat)
    (dest : CoordState) : CoordState × Sinks :=
  let s1 := if env.cachePowerOk then
    { sinks with cachePower := upsertUpdate sinks.cachePower ts } else sinks
  let s2 := if env.cacheEnergyOk then
    { s1 with cacheEnergy := upsertUpdate s1.cacheEnergy ts } else s1
  if !env.cachePowerOk || !env.cacheEnergyOk then (CoordState.Shutdown, s2)
  else (dest, s2)

/-- Source `run_coordinator`'s transition match (health.rs:497-568) together
with the per-state `to_*` helpers it calls. Cases not listed in the source
(`other => other`) leave the coordinator unchanged. Only
`Coordinator::<Healthy>`'s `to_degraded_no_db` / `to_cache_only` write the
carried pair to the cache; the `DegradedNoDB` and `DegradedNoMqtt` variants
of `to_cache_only` (health.rs:241-244, 299-302) are plain transitions that
drop the payload. `to_healthy` from DegradedNoDB and CacheOnly runs
`sync_to_postgres`; from DegradedNoMqtt it does not. -/
def applyTransition (s : CoordState) (t : HTransition) (env : CycleEnv)
    (sinks : Sinks) : CoordState × Sinks :=
  match t with
  | HTransition.ToHealthy =>
    match s with
    | CoordState.DegradedNoDB => (CoordState.Healthy, syncToPostgres sinks)
    | CoordState.DegradedNoMqtt => (CoordState.Healthy, sinks)
    | CoordState.CacheOnly => (CoordState.Healthy, syncToPostgres sinks)
    | other => (other, sinks)
  | HTransition.ToDegradedNoDB ts =>
    match s with
    | CoordState.Healthy => cacheCarriedPair env sinks ts CoordState.DegradedNoDB
    | CoordState.DegradedNoMqtt => (CoordState.DegradedNoDB, sinks)
    | CoordState.CacheOnly => (CoordState.DegradedNoDB, sinks)
    | other => (other, sinks)
  | HTransition.ToDegradedNoMqtt =>
    match s with
    | CoordState.Healthy => (CoordState.DegradedNoMqtt, sinks)
    | CoordState.DegradedNoDB => (CoordState.DegradedNoMqtt, sinks)
    | CoordState.CacheOnly => (CoordState.DegradedNoMqtt, sinks)
    | other => (other, sinks)
  | HTransition.ToCacheOnly ts =>
    match s with
    | CoordState.Healthy => cacheCarriedPair env sinks ts CoordState.CacheOnly
    | CoordState.DegradedNoDB => (CoordState.CacheOnly, sinks)
    | CoordState.DegradedNoMqtt => (CoordState.CacheOnly, sinks)
    | other => (other, sinks)
  | HTransition.ToShutdown => (CoordState.Shutdown, sinks)

/-- Outcome of one iteration of the `loop` in `run_coordinator`
(health.rs:493-577): continue with a (possibly new) state, exit the loop
normally (`CoordinatorResult::Shutdown => break`), or return the cycle's
error from `run_coordinator` itself (the `?` at health.rs:494). -/
inductive LoopOutcome where
  | next (s : CoordState) (sinks : Sinks)
  | exitOk (sinks : Sinks)
  | exitErr
  deriving DecidableEq, Repr

/-- One iteration of the `run_coordinator` main loop (health.rs:493-577):
run the current state's cycle — an `Err` propagates through `?`, ending
`run_coordinator` with that error — then apply the transition, if any. -/
def runCoordinatorStep (s : CoordState) (env : CycleEnv) (sinks : Sinks)
    (ts : Nat) : LoopOutcome :=
  match runCycle s env sinks ts with
  | Except.error _ => LoopOutcome.exitErr
  | Except.ok (CResult.Continue, sinks', _) => LoopOutcome.next s sinks'
  | Except.ok (CResult.TransitionTo t, sinks', _) =>
    let (s2, sinks2) := applyTransition s t env sinks'
    LoopOutcome.next s2 sinks2
  | Except.ok (CResult.ShutdownR, sinks', _) => LoopOutcome.exitOk sinks'

-- ===========================================================================
-- Concrete inputs used by the claim theorems
-- ===========================================================================

/-- Specification scenario 1 raw power sample: dc=500, prod=500, grid=-800,
soc=75, battery=-1500 (already dc-corrected), consumption=1200. -/
def scenarioRaw : RawPowerData :=
  { dc_power := 500, production_power := 500, grid_power := -800,
    battery_state := 75, battery_power := -1500, consumption_power := 1200 }

/-- Default battery configuration: MAX_BATTERY_ENERGY=10000,
EMPTY_THRESHOLD=10. -/
def defaultBatteryConfig : BatteryConfig :=
  { max_battery_energy := 10000, empty_threshold := 10 }

/-- Raw sample with an out-of-range SoC reading (150) and powers that take
the Offline/idle branches. -/
def socOutOfRangeRaw : RawPowerData :=
  { dc_power := 0, production_power := 0, grid_power := 0,
    battery_state := 150, battery_power := 0, consumption_power := 0 }

/-- Cycle environment of the DegradedNoMqtt data-loss run: probe not due,
collection succeeds, both upstream stores fail, the cache is functional. -/
def noMqttDbDownEnv : CycleEnv :=
  { probeDue := false, dbProbeHealthy := false, mqttProbeHealthy := false,
    collectOk := true, upPowerOk := false, upEnergyOk := false,
    mqttPublishOk := false, cachePowerOk := true, cacheEnergyOk := true }

/-- Cycle environment of the CacheOnly recovery probe with the database
still unhealthy and MQTT healthy. -/
def cacheOnlyProbeEnv : CycleEnv :=
  { probeDue := true, dbProbeHealthy := false, mqttProbeHealthy := true,
    collectOk := true, upPowerOk := true, upEnergyOk := true,
    mqttPublishOk := true, cachePowerOk := true, cacheEnergyOk := true }

/-- Cycle environment in which every collection attempt fails and every sink
is functional. -/
def collectFailEnv : CycleEnv :=
  { probeDue := false, dbProbeHealthy := false, mqttProbeHealthy := false,
    collectOk := false, upPowerOk := true, upEnergyOk := true,
    mqttPublishOk := true, cachePowerOk := true, cacheEnergyOk := true }

-- ===========================================================================
-- C1. Sample preservation / atomicity
-- ===========================================================================

/-- C1: the claimed atomicity invariant fails on the code. In the
DegradedNoMqtt state with both upstream stores failing and a functional
cache, `run_cycle` produces the sample pair (timestamp 7) and returns
`ToCacheOnly` carrying it, but `Coordinator::<DegradedNoMqtt>::to_cache_only`
(health.rs:299-302, invoked at health.rs:550-552) drops the payload: the
cycle ends in CacheOnly — not Shutdown, no cache fault — with the sample in
no sink at all, for either kind. -/
theorem degradedNoMqtt_db_failure_loses_sample :
    runCycle CoordState.DegradedNoMqtt noMqttDbDownEnv emptySinks 7 =
      Except.ok (CResult.TransitionTo (HTransition.ToCacheOnly 7), emptySinks, some 7)
    ∧ runCoordinatorStep CoordState.DegradedNoMqtt noMqttDbDownEnv emptySinks 7 =
      LoopOutcome.next CoordState.CacheOnly emptySinks
    ∧ CoordState.CacheOnly ≠ CoordState.Shutdown
    ∧ ¬(7 ∈ emptySinks.upstreamPower ∨ 7 ∈ emptySinks.cachePower)
    ∧ ¬(7 ∈ emptySinks.upstreamEnergy ∨ 7 ∈ emptySinks.cacheEnergy) := by
  refine ⟨rfl, rfl, by decide, by decide, by decide⟩

-- ===========================================================================
-- C2. CacheOnly recovery probe, (DB down, MQTT up)
-- ===========================================================================

/-- C2: from CacheOnly, a recovery probe finding the database unhealthy and
MQTT healthy makes the coordinator transition to DegradedNoMqtt (the source
emits `ToDegradedNoMqtt` at health.rs:344-346), not to the DegradedNoDB
state the claim — and the code's own log line — names. -/
theorem cacheOnly_dbDown_mqttUp_goes_to_DegradedNoMqtt :
    runCoordinatorStep CoordState.CacheOnly cacheOnlyProbeEnv emptySinks 0 =
      LoopOutcome.next CoordState.DegradedNoMqtt emptySinks
    ∧ CoordState.DegradedNoMqtt ≠ CoordState.DegradedNoDB := by
  decide

-- ===========================================================================
-- C3. battery_energy_wh stored in a sink record
-- ===========================================================================

/-- Transformer output at `scenarioRaw` under the default battery config:
supply Surplus(800), battery Loading(1500), soc 75,
battery_energy = 10000 × 0.75 = 7500 (exact in f32). -/
def scenarioPd : ProcessedData :=
  { supply_state := SupplyState.Surplus 800
    battery_status := { battery_state := BatteryState.Loading 1500
                        battery_percent := 75
                        battery_energy := 7500 }
    full_production := 500
    consumption := 1200 }

/-- C3: at max_battery_energy=10000 and soc=75 the record conversion stores
battery_energy_wh = 7500000, not the claimed 7500 = 10000 × 75 / 100: the
calculator computes battery_energy = 10000 × 0.75 = 7500 and the db.rs
conversion multiplies by a further 1000 before the i32 cast. Every f32
operation involved is exact at this input. -/
theorem battery_energy_wh_unit_mismatch :
    process_raw scenarioRaw defaultBatteryConfig = some scenarioPd
    ∧ (pvPowerRecordFrom scenarioPd).battery_energy_wh = 7500000
    ∧ (10000 : Int) * 75 / 100 = 7500
    ∧ (7500000 : Int) ≠ 7500 := by
  have hs : supplyStateOf (-800) = some (SupplyState.Surplus 800) := by decide
  have hb : batteryStateOf (-1500) 75 10 = some (BatteryState.Loading 1500) := by
    decide
  refine ⟨?_, ?_, by decide, by decide⟩
  · simp only [process_raw, scenarioRaw, defaultBatteryConfig]
    rw [hs, hb]
    simp [scenarioPd]
    norm_num
  · simp only [pvPowerRecordFrom, scenarioPd, f32AsI32, ratTrunc, i32Min]
    norm_num

-- ===========================================================================
-- C5. Battery-state thresholds
-- ===========================================================================

/-- C5 counterexample: at the boundary b = −100 the Rust range pattern
`..-100` does not match (it means b < −100), so the idle arm `-100..100`
applies and SoC 50 > threshold 10 gives Full — not the Charging(100) the
claim asserts for b ≤ −100. -/
theorem batteryState_boundary_minus100_is_idle :
    batteryStateOf (-100) 50 10 = some BatteryState.Full
    ∧ batteryStateOf (-100) 50 10 ≠ some (BatteryState.Loading 100) := by
  decide

-- ===========================================================================
-- C6. SoC clamping
-- ===========================================================================

/-- C6 counterexample: with SoC 150 the Transformer returns a result whose
battery_percent is 150 — no clamping to [0,100] happens anywhere in
`process_raw`. -/
theorem process_raw_does_not_clamp_soc :
    (process_raw socOutOfRangeRaw defaultBatteryConfig).map
        (fun pd => pd.battery_status.battery_percent) = some 150
    ∧ ¬(150 ≤ 100) := by
  decide

-- ===========================================================================
-- C7. Drain replay loop and failing rows
-- ===========================================================================

/-- C7 counterexample: with a two-row batch whose first row's upstream insert
fails hard, the sync loop still attempts the second row (and archives it on
success) — it does not stop at the first error. -/
theorem sync_loop_attempts_row_after_failure :
    (syncLoop [1, 2] (fun ts => ts == 2)).1 = [1, 2]
    ∧ 2 ∈ (syncLoop [1, 2] (fun ts => ts == 2)).1
    ∧ (syncLoop [1, 2] (fun ts => ts == 2)).2 = [2] := by
  decide

/-- C7 amended: the per-row replay loop of `sync_power_data_batch` /
`sync_energy_data_batch` attempts every row of the batch regardless of
earlier failures; exactly the rows whose insert returned Ok are marked for
archival. -/
theorem sync_loop_attempts_every_row (records : List Nat) (ok : Nat → Bool) :
    (syncLoop records ok).1 = records
    ∧ (syncLoop records ok).2 = records.filter ok := by
  induction records with
  | nil => simp [syncLoop]
  | cons r rest ih =>
    by_cases h : ok r <;>
      simp [syncLoop, ih.1, ih.2, List.filter_cons, h]

-- ===========================================================================
-- C9. Stores with an absent pool leave the health tracker unchanged
-- ===========================================================================

/-- C9: when the PostgreSQL pool is absent, `store_power_data` and
`store_energy_data` return the "PostgreSQL not connected" error before any
SQL executes and return the tracker state unchanged — consecutive_failures,
health, last_failure and last_error all keep their previous values,
whatever the would-be query outcome. -/
theorem store_without_pool_leaves_tracker (st : PostgresState) (now : Nat)
    (queryOk : Bool) (err : String) :
    store_power_data none st now queryOk err =
      (Except.error "PostgreSQL not connected", st)
    ∧ store_energy_data none st now queryOk err =
      (Except.error "PostgreSQL not connected", st) := by
  exact ⟨rfl, rfl⟩

-- ===========================================================================
-- C4. Collection retry and the fate of a final failure
-- ===========================================================================

/-- C4 counterexample: when every collection attempt fails, the Healthy
cycle's `?` on `collect_raw_data_with_retry` returns the error from
`run_cycle`, and the `?` at health.rs:494 then ends `run_coordinator` itself:
the loop iteration yields `exitErr`, not a continuation with the state
unchanged — the main loop does not keep running to a next tick. -/
theorem collect_failure_ends_main_loop :
    runCoordinatorStep CoordState.Healthy collectFailEnv emptySinks 0 =
      LoopOutcome.exitErr
    ∧ runCoordinatorStep CoordState.Healthy collectFailEnv emptySinks 0 ≠
      LoopOutcome.next CoordState.Healthy emptySinks := by
  exact ⟨rfl, by decide⟩

/-- C4 amended: collection is retried up to 3 attempts with exponential
backoff 100·2^k ms (delays [100, 200] when the first two attempts fail), a
final failure causes no state transition, but it is not confined to the
cycle: the error propagates out of `run_cycle` and the `?` in
`run_coordinator` terminates the main loop with it, in every state whose
cycle collects via `collect_raw_data_with_retry`. -/
theorem collect_retry_and_loop_exit :
    (∀ ok : Nat → Bool, ok 0 = false → ok 1 = false → ok 2 = false →
        collect_raw_data_with_retry ok = (none, [100, 200]))
    ∧ (∀ ok : Nat → Bool, ok 0 = true →
        collect_raw_data_with_retry ok = (some (), []))
    ∧ (∀ ok : Nat → Bool, ok 0 = false → ok 1 = true →
        collect_raw_data_with_retry ok = (some (), [100]))
    ∧ (∀ ok : Nat → Bool, ok 0 = false → ok 1 = false → ok 2 = true →
        collect_raw_data_with_retry ok = (some (), [100, 200]))
    ∧ (∀ (env : CycleEnv) (sinks : Sinks) (ts : Nat),
        env.collectOk = false → env.probeDue = false →
        runCoordinatorStep CoordState.Healthy env sinks ts = LoopOutcome.exitErr
        ∧ runCoordinatorStep CoordState.DegradedNoDB env sinks ts =
            LoopOutcome.exitErr
        ∧ runCoordinatorStep CoordState.DegradedNoMqtt env sinks ts =
            LoopOutcome.exitErr) := by
  refine ⟨?_, ?_, ?_, ?_, ?_⟩
  · intro ok h0 h1 h2
    simp [collect_raw_data_with_retry, MAX_RETRIES, BASE_DELAY_MS, retryLoop,
      h0, h1, h2]
  · intro ok h0
    simp [collect_raw_data_with_retry, MAX_RETRIES, BASE_DELAY_MS, retryLoop, h0]
  · intro ok h0 h1
    simp [collect_raw_data_with_retry, MAX_RETRIES, BASE_DELAY_MS, retryLoop,
      h0, h1]
  · intro ok h0 h1 h2
    simp [collect_raw_data_with_retry, MAX_RETRIES, BASE_DELAY_MS, retryLoop,
      h0, h1, h2]
  · intro env sinks ts h1 h2
    refine ⟨?_, ?_, ?_⟩ <;>
      simp [runCoordinatorStep, runCycle, healthyRunCycle,
        degradedNoDBRunCycle, degradedNoMqttRunCycle, h1, h2]

/-- Witness for `collect_retry_and_loop_exit` at the all-attempts-fail
oracle. -/
theorem collect_retry_and_loop_exit_witness :
    collect_raw_data_with_retry (fun _ => false) = (none, [100, 200]) :=
  collect_retry_and_loop_exit.1 (fun _ => false) rfl rfl rfl

-- ===========================================================================
-- C5 amended: the exact thresholds of the battery-state match
-- ===========================================================================

/-- Computation of the Discharging arm: any b with 100 ≤ b < 2^31. -/
theorem batteryStateOf_discharging (b : Int) (soc thr : Nat)
    (h1 : 100 ≤ b) (h2 : b < 2147483648) :
    batteryStateOf b soc thr = some (BatteryState.Discharging b.toNat) := by
  have hc1 : (0 : Int) ≤ b := by omega
  have hc2 : b ≤ 4294967295 := by omega
  simp [batteryStateOf, u32TryFrom, u32Max, h1, hc1, hc2]

/-- Computation of the Loading arm: any b with i32::MIN < b < −100. -/
theorem batteryStateOf_loading (b : Int) (soc thr : Nat)
    (h1 : b < -100) (h2 : i32Min < b) :
    batteryStateOf b soc thr = some (BatteryState.Loading b.natAbs) := by
  unfold i32Min at h2
  have hn : ¬(100 ≤ b) := by omega
  have hne : ¬(b = -2147483648) := by omega
  have hc2 : |b| ≤ 4294967295 := by
    rw [Int.abs_eq_natAbs]
    omega
  have hc3 : |b|.toNat = b.natAbs := by
    rw [Int.abs_eq_natAbs]
    omega
  simp [batteryStateOf, i32Abs, i32Min, u32TryFrom, u32Max, h1, hn, hne,
    hc2, hc3]

/-- Computation of the idle arm: any b with −100 ≤ b < 100. -/
theorem batteryStateOf_idle (b : Int) (soc thr : Nat)
    (h1 : -100 ≤ b) (h2 : b < 100) :
    batteryStateOf b soc thr =
      some (if soc ≤ thr then BatteryState.Empty else BatteryState.Full) := by
  have hn1 : ¬(100 ≤ b) := by omega
  have hn2 : ¬(b < -100) := by omega
  simp [batteryStateOf, hn1, hn2]

/-- C5 amended: for corrected battery power b in the i32 range (above
i32::MIN), the match yields Discharging(b) iff 100 ≤ b, Loading(|b|) iff
b < −100 (the Rust pattern `..-100` excludes −100), and the SoC-resolved
idle state iff −100 ≤ b < 100; in particular the boundary b = −100 yields
the idle state, not Charging(100). -/
theorem battery_thresholds (b : Int) (soc thr : Nat)
    (hlo : i32Min < b) (hhi : b < 2147483648) :
    ((∃ p, batteryStateOf b soc thr = some (BatteryState.Discharging p)) ↔
      100 ≤ b)
    ∧ ((∃ p, batteryStateOf b soc thr = some (BatteryState.Loading p)) ↔
      b < -100)
    ∧ (batteryStateOf b soc thr =
        some (if soc ≤ thr then BatteryState.Empty else BatteryState.Full) ↔
        (-100 ≤ b ∧ b < 100))
    ∧ (100 ≤ b → batteryStateOf b soc thr =
        some (BatteryState.Discharging b.toNat))
    ∧ (b < -100 → batteryStateOf b soc thr =
        some (BatteryState.Loading b.natAbs))
    ∧ batteryStateOf (-100) soc thr =
        some (if soc ≤ thr then BatteryState.Empty else BatteryState.Full) := by
  refine ⟨⟨?_, ?_⟩, ⟨?_, ?_⟩, ⟨?_, ?_⟩, ?_, ?_, ?_⟩
  · rintro ⟨p, hp⟩
    by_contra hcon
    rcases (show b < -100 ∨ (-100 ≤ b ∧ b < 100) by omega) with h | ⟨ha, hb⟩
    · rw [batteryStateOf_loading b soc thr h hlo] at hp
      simp at hp
    · rw [batteryStateOf_idle b soc thr ha hb] at hp
      by_cases hsoc : soc ≤ thr <;> simp [hsoc] at hp
  · intro h
    exact ⟨b.toNat, batteryStateOf_discharging b soc thr h hhi⟩
  · rintro ⟨p, hp⟩
    by_contra hcon
    rcases (show 100 ≤ b ∨ (-100 ≤ b ∧ b < 100) by omega) with h | ⟨ha, hb⟩
    · rw [batteryStateOf_discharging b soc thr h hhi] at hp
      simp at hp
    · rw [batteryStateOf_idle b soc thr ha hb] at hp
      by_cases hsoc : soc ≤ thr <;> simp [hsoc] at hp
  · intro h
    exact ⟨b.natAbs, batteryStateOf_loading b soc thr h hlo⟩
  · intro hp
    by_contra hcon
    rcases (show 100 ≤ b ∨ b < -100 by omega) with h | h
    · rw [batteryStateOf_discharging b soc thr h hhi] at hp
      by_cases hsoc : soc ≤ thr <;> simp [hsoc] at hp
    · rw [batteryStateOf_loading b soc thr h hlo] at hp
      by_cases hsoc : soc ≤ thr <;> simp [hsoc] at hp
  · rintro ⟨ha, hb⟩
    exact batteryStateOf_idle b soc thr ha hb
  · intro h
    exact batteryStateOf_discharging b soc thr h hhi
  · intro h
    exact batteryStateOf_loading b soc thr h hlo
  · exact batteryStateOf_idle (-100) soc thr (by omega) (by omega)

/-- Witness for `battery_thresholds` at b = −1500, soc 75, threshold 10. -/
theorem battery_thresholds_witness :
    batteryStateOf (-1500) 75 10 =
      some (BatteryState.Loading (Int.natAbs (-1500))) :=
  (battery_thresholds (-1500) 75 10 (by decide) (by decide)).2.2.2.2.1
    (by decide)

-- ===========================================================================
-- C6 amended: SoC passes through the Transformer unchanged
-- ===========================================================================

/-- C6 amended: whenever `process_raw` returns a result, its battery_percent
equals the input SoC unchanged — there is no clamping — so it lies in
[0,100] exactly when the input SoC does. -/
theorem process_raw_passes_soc_through (raw : RawPowerData)
    (config : BatteryConfig) (pd : ProcessedData)
    (h : process_raw raw config = some pd) :
    pd.battery_status.battery_percent = raw.battery_state
    ∧ (pd.battery_status.battery_percent ≤ 100 ↔ raw.battery_state ≤ 100) := by
  simp only [process_raw] at h
  split at h
  · injection h with h
    subst h
    exact ⟨rfl, Iff.rfl⟩
  · exact absurd h (by simp)

/-- Witness for `process_raw_passes_soc_through` at scenario 1. -/
theorem process_raw_passes_soc_through_witness :
    scenarioPd.battery_status.battery_percent = scenarioRaw.battery_state
    ∧ (scenarioPd.battery_status.battery_percent ≤ 100 ↔
        scenarioRaw.battery_state ≤ 100) :=
  process_raw_passes_soc_through scenarioRaw defaultBatteryConfig scenarioPd
    (by
      have hs : supplyStateOf (-800) = some (SupplyState.Surplus 800) := by
        decide
      have hb : batteryStateOf (-1500) 75 10 =
          some (BatteryState.Loading 1500) := by decide
      simp only [process_raw, scenarioRaw, defaultBatteryConfig]
      rw [hs, hb]
      simp [scenarioPd]
      norm_num)

-- ===========================================================================
-- C8. Idempotent drain
-- ===========================================================================

/-- Timestamp keys of an upstream table. -/
def keysOf {α : Type} (table : List (Nat × α)) : List Nat :=
  table.map Prod.fst

/-- A DO NOTHING insert never removes a key. -/
theorem keysOf_upsert_superset {α : Type} (table : List (Nat × α))
    (ts k : Nat) (row : α) (h : k ∈ keysOf table) :
    k ∈ keysOf (upsertDoNothing table ts row) := by
  unfold upsertDoNothing
  split
  · exact h
  · unfold keysOf at h ⊢
    simp only [List.map_append]
    exact List.mem_append_left _ h

/-- After a DO NOTHING insert the inserted key is present. -/
theorem keysOf_upsert_self {α : Type} (table : List (Nat × α)) (ts : Nat)
    (row : α) : ts ∈ keysOf (upsertDoNothing table ts row) := by
  unfold upsertDoNothing
  split
  · assumption
  · unfold keysOf
    simp

/-- A DO NOTHING insert whose key already exists leaves the table untouched:
it never overwrites an existing upstream row. -/
theorem upsert_of_mem {α : Type} (table : List (Nat × α)) (ts : Nat) (row : α)
    (h : ts ∈ keysOf table) : upsertDoNothing table ts row = table := by
  unfold upsertDoNothing
  exact if_pos h

/-- Draining never removes a key. -/
theorem drain_keys_superset {α : Type} (batch : List (Nat × α)) (k : Nat) :
    ∀ table : List (Nat × α), k ∈ keysOf table →
      k ∈ keysOf (drainBatch table batch) := by
  induction batch with
  | nil => exact fun _ h => h
  | cons r rest ih =>
    intro table h
    exact ih _ (keysOf_upsert_superset table r.1 k r.2 h)

/-- Every key of the batch is present after the drain. -/
theorem drain_mem {α : Type} (batch : List (Nat × α)) (r : Nat × α)
    (hr : r ∈ batch) : ∀ table : List (Nat × α),
      r.1 ∈ keysOf (drainBatch table batch) := by
  induction batch with
  | nil => cases hr
  | cons b rest ih =>
    intro table
    rcases List.mem_cons.mp hr with h | h
    · subst h
      exact drain_keys_superset rest r.1 _ (keysOf_upsert_self table r.1 r.2)
    · exact ih h _

/-- Draining a batch all of whose keys are already present is a no-op. -/
theorem drain_noop {α : Type} (batch : List (Nat × α)) :
    ∀ table : List (Nat × α), (∀ r ∈ batch, r.1 ∈ keysOf table) →
      drainBatch table batch = table := by
  induction batch with
  | nil => exact fun _ _ => rfl
  | cons b rest ih =>
    intro table h
    have hb : b.1 ∈ keysOf table := h b (List.mem_cons_self b rest)
    have hstep : drainBatch table (b :: rest) =
        drainBatch (upsertDoNothing table b.1 b.2) rest := rfl
    rw [hstep, upsert_of_mem table b.1 b.2 hb]
    exact ih table fun r hr => h r (List.mem_cons_of_mem _ hr)

/-- C8: replaying the same cache batch twice through the DO NOTHING insert
leaves the upstream table identical to replaying it once. -/
theorem drain_idempotent {α : Type} (table batch : List (Nat × α)) :
    drainBatch (drainBatch table batch) batch = drainBatch table batch :=
  drain_noop batch _ fun r hr => drain_mem batch r hr table

-- ===========================================================================
-- C10. Panic-freedom of the Transformer away from i32::MIN
-- ===========================================================================

/-- The supply-state match succeeds for every grid power strictly between
i32::MIN and 2^31. -/
theorem supplyStateOf_isSome (g : Int) (h1 : i32Min < g)
    (h2 : g < 2147483648) : (supplyStateOf g).isSome = true := by
  unfold i32Min at h1
  by_cases hneg : g < 0
  · have hne : ¬(g = -2147483648) := by omega
    have hc2 : |g| ≤ 4294967295 := by
      rw [Int.abs_eq_natAbs]
      omega
    simp [supplyStateOf, i32Abs, i32Min, u32TryFrom, u32Max, hneg, hne, hc2]
  · by_cases hpos : 0 < g <;> simp [supplyStateOf, hneg, hpos]

/-- The battery-state match succeeds for every battery power strictly
between i32::MIN and 2^31. -/
theorem batteryStateOf_isSome (b : Int) (soc thr : Nat) (h1 : i32Min < b)
    (h2 : b < 2147483648) : (batteryStateOf b soc thr).isSome = true := by
  rcases (show 100 ≤ b ∨ b < -100 ∨ (-100 ≤ b ∧ b < 100) by omega) with
    h | h | ⟨ha, hb⟩
  · rw [batteryStateOf_discharging b soc thr h h2]; rfl
  · rw [batteryStateOf_loading b soc thr h h1]; rfl
  · rw [batteryStateOf_idle b soc thr ha hb]; rfl

/-- C10: `process_raw` is panic-free for every input whose grid_power and
battery_power both exceed i32::MIN (all `abs`/`try_into().unwrap()` calls
succeed), while an input with grid_power = i32::MIN or
battery_power = i32::MIN panics (modelled as `none`). -/
theorem process_raw_panic_free :
    (∀ (raw : RawPowerData) (config : BatteryConfig),
        i32Min < raw.grid_power → raw.grid_power < 2147483648 →
        i32Min < raw.battery_power → raw.battery_power < 2147483648 →
        (process_raw raw config).isSome = true)
    ∧ process_raw { scenarioRaw with grid_power := i32Min }
        defaultBatteryConfig = none
    ∧ process_raw { scenarioRaw with battery_power := i32Min }
        defaultBatteryConfig = none := by
  refine ⟨?_, by decide, by decide⟩
  intro raw config hg1 hg2 hb1 hb2
  obtain ⟨ss, hss⟩ :=
    Option.isSome_iff_exists.mp (supplyStateOf_isSome raw.grid_power hg1 hg2)
  obtain ⟨bs, hbs⟩ :=
    Option.isSome_iff_exists.mp
      (batteryStateOf_isSome raw.battery_power raw.battery_state
        config.empty_threshold hb1 hb2)
  simp [process_raw, hss, hbs]

/-- Witness for `process_raw_panic_free` at scenario 1. -/
theorem process_raw_panic_free_witness :
    (process_raw scenarioRaw defaultBatteryConfig).isSome = true :=
  process_raw_panic_free.1 scenarioRaw defaultBatteryConfig (by decide)
    (by decide) (by decide) (by decide)

end PvApi
